import Mathlib

/-!
# Verification of the Tom display-appliance configuration core

Shallow embedding of the configuration store (`src/config_state.py`), the
weather producer (`src/weather.py`) and the web control-plane save handler
(`src/web_config.py`, duplicated in `src/main.py`), together with theorems
checking the specification's claims about them.

Configuration trees are JSON-like values.  Python `dict`s are modelled as
association lists with unique keys in insertion order; `dict.get`,
`dict.__setitem__` and iteration order are modelled exactly.  Python `float`
values are modelled as rationals.
-/

set_option autoImplicit false

namespace Tom

/-- A JSON-like value, the type of configuration trees, sections and leaves.
Numbers are modelled as rationals. -/
inductive Json where
  | null : Json
  | bool : Bool → Json
  | num : Rat → Json
  | str : String → Json
  | arr : List Json → Json
  | obj : List (String × Json) → Json

/-- First binding of key `k` in an association list (Python dicts have unique
keys, so this is `dict.get(k)` returning `None` when absent). -/
def lookup (kvs : List (String × Json)) (k : String) : Option Json :=
  match kvs with
  | [] => none
  | (k', v) :: rest => if k' = k then some v else lookup rest k

/-- `target[key] = value` on a Python dict: replace in place when the key is
present (keeping its position), append otherwise. -/
def setKey (kvs : List (String × Json)) (k : String) (v : Json) :
    List (String × Json) :=
  match kvs with
  | [] => [(k, v)]
  | (k', v') :: rest =>
      if k' = k then (k, v) :: rest else (k', v') :: setKey rest k v

mutual

/-- `_deep_update(target, updates)` from `src/config_state.py` lines 68-73,
made functional: iterate over the update entries in order, mutating the
target by one `mergeStep` per entry. -/
def deepUpdateObj : List (String × Json) → List (String × Json) →
    List (String × Json)
  | target, [] => target
  | target, (k, v) :: rest => deepUpdateObj (mergeStep target k v) rest
termination_by _ updates => sizeOf updates
decreasing_by
  all_goals simp_wf <;> omega

/-- One iteration of the `_deep_update` loop body: when both
`target.get(key)` and the update value are dicts, recurse into them;
otherwise `target[key] = value`. -/
def mergeStep (target : List (String × Json)) (k : String) (v : Json) :
    List (String × Json) :=
  match v, lookup target k with
  | Json.obj uObj, some (Json.obj tObj) =>
      setKey target k (Json.obj (deepUpdateObj tObj uObj))
  | _, _ => setKey target k v
termination_by sizeOf v
decreasing_by
  all_goals simp_wf

end

/-- `_deep_update` at the `Json` level.  The Python function is only ever
called with two dicts; on any other shapes it raises before mutating, so the
target is returned unchanged. -/
def deep_update (target updates : Json) : Json :=
  match target, updates with
  | Json.obj t, Json.obj u => Json.obj (deepUpdateObj t u)
  | t, _ => t

mutual

/-- Well-formedness of a `Json` value as the image of a Python object:
every object has pairwise distinct keys.  Every tree produced by
`json.load`, every Python dict literal in the repository, and hence every
tree the program manipulates satisfies this. -/
def wfJson : Json → Bool
  | Json.obj kvs => wfEntries kvs
  | _ => true

/-- Well-formedness of an association list modelling a Python dict: keys are
pairwise distinct and all values are well-formed. -/
def wfEntries : List (String × Json) → Bool
  | [] => true
  | (k, v) :: rest => (lookup rest k).isNone && wfJson v && wfEntries rest

end

/-! ## Paths and the default configuration (`src/config_state.py` lines 7-62)

`BASE_DIR` is the runtime directory of the source file; its concrete value is
irrelevant to every claim (only that the derived paths are fixed constants),
so it is modelled as `"."`. -/

def BASE_DIR : String := "."

def ASSETS_DIR : String := BASE_DIR ++ "/config"

def BACKGROUND_PATH : String := ASSETS_DIR ++ "/background.png"

def BOOT_SOUND_PATH : String := ASSETS_DIR ++ "/boot.wav"

/-- `DEFAULT_CONFIG` from `src/config_state.py` lines 14-62, as an
association list (the top-level dict). -/
def defaultEntries : List (String × Json) :=
  [ ("terminal", Json.obj
      [ ("font_size", Json.num 24),
        ("colors", Json.arr
          [ Json.str "\x1b[91m", Json.str "\x1b[92m", Json.str "\x1b[93m",
            Json.str "\x1b[94m", Json.str "\x1b[95m", Json.str "\x1b[96m",
            Json.str "\x1b[97m" ]),
        ("refresh_s", Json.num 1),
        ("clear_screen", Json.bool true) ]),
    ("oled", Json.obj
      [ ("interface", Json.str "i2c"),
        ("port", Json.num 1),
        ("address", Json.num 60),
        ("width", Json.num 128),
        ("height", Json.num 64),
        ("rotate", Json.num 0),
        ("refresh_s", Json.num 1),
        ("font_sizes", Json.obj
          [ ("time", Json.num 28),
            ("date", Json.num 12),
            ("weather", Json.num 12) ]) ]),
    ("weather", Json.obj
      [ ("enabled", Json.bool true),
        ("latitude", Json.num (377749 / 10000 : Rat)),
        ("longitude", Json.num (-1224194 / 10000 : Rat)),
        ("units", Json.str "imperial"),
        ("refresh_s", Json.num 300) ]),
    ("background", Json.obj
      [ ("enabled", Json.bool true),
        ("path", Json.str BACKGROUND_PATH) ]),
    ("audio", Json.obj
      [ ("enabled", Json.bool true),
        ("path", Json.str BOOT_SOUND_PATH) ]),
    ("web", Json.obj
      [ ("config_port", Json.num 5000),
        ("reboot_port", Json.num 500) ]) ]

def DEFAULT_CONFIG : Json := Json.obj defaultEntries

/-! ## The ConfigStore operations (`src/config_state.py` lines 76-102)

File-system and JSON-parser outcomes are inputs of the model: `load_config`
receives whether `CONFIG_PATH` exists and the result of `json.load` on it,
`save_config`/`update_config` receive the outcome of the file write. -/

/-- `load_config()` (lines 76-85).  Starts from a deep copy of the defaults;
if the persisted file exists, parsing it and deep-merging it are attempted
inside a `try` whose `except` logs and keeps the defaults.  A parse that
yields a non-dict makes `_deep_update` raise on `updates.items()` before any
mutation, so that case also returns the defaults unmodified. -/
def load_config (fileExists : Bool) (parsed : Except String Json) : Json :=
  if fileExists then
    match parsed with
    | Except.ok (Json.obj saved) => Json.obj (deepUpdateObj defaultEntries saved)
    | Except.ok _ => DEFAULT_CONFIG
    | Except.error _ => DEFAULT_CONFIG
  else DEFAULT_CONFIG

/-- `save_config(config)` (lines 88-91): an unguarded write of the full tree;
whatever outcome the file system gives is the outcome of the call — there is
no `try`/`except` here. -/
def save_config (writeResult : Except String Unit) : Except String Unit :=
  writeResult

/-- `update_config(patch)` (lines 99-102) under the config lock: first
`_deep_update(CONFIG, patch)`, then `save_config(CONFIG)`.  Returns the new
in-memory `CONFIG` together with what the call raises to its caller: the
merge has already happened when `save_config` runs, and a write failure
propagates out of the `with` block (which only releases the lock). -/
def update_config (config patch : Json) (writeResult : Except String Unit) :
    Json × Except String Unit :=
  (deep_update config patch, save_config writeResult)

/-- `get_config()` (lines 94-96): a deep copy of the current tree under the
lock.  Copying is identity in a functional model. -/
def get_config (config : Json) : Json := config

/-! ## Path/value helpers used to state the merge claims -/

/-- Is the value a dict? -/
def isObj : Json → Bool
  | Json.obj _ => true
  | _ => false

/-- "Both the existing value and the new value are dicts" — the recursion
guard of `_deep_update` at one key. -/
def bothObj (v : Json) (w : Option Json) : Bool :=
  match v, w with
  | Json.obj _, some (Json.obj _) => true
  | _, _ => false

/-- Top-level keys are pairwise distinct (what holds of any Python dict). -/
def distinctKeys : List (String × Json) → Bool
  | [] => true
  | (k, _) :: rest => (lookup rest k).isNone && distinctKeys rest

/-- Follow a key path through nested dicts: `cfg[k1][k2]…`, `none` when a key
is absent or a non-dict is indexed. -/
def lookupPath : Json → List String → Option Json
  | j, [] => some j
  | Json.obj kvs, k :: rest =>
      match lookup kvs k with
      | some v => lookupPath v rest
      | none => none
  | _, _ :: _ => none

/-- A patch "touches" (specifies something about) a key path when following
the path through the patch never falls off a missing key: either the path
reaches a value, or a strict prefix of it reaches a non-dict leaf (which the
merge assigns wholesale, thereby determining everything below it). -/
def touchesPath : Json → List String → Bool
  | _, [] => true
  | Json.obj kvs, k :: rest =>
      match lookup kvs k with
      | some v => touchesPath v rest
      | none => false
  | _, _ :: _ => true

/-! ## Weather producer (`src/weather.py`)

External effects are oracle inputs: `FetchOutcome` is what the network/JSON
layer of `_fetch_weather`'s `try` block produced (`error` = any exception up
to and including `json.loads`), `fmt` is CPython's `f"{temp:.0f}"` float
formatting. -/

/-- Result of `urlopen` + `json.loads` inside `_fetch_weather`. -/
inductive FetchOutcome where
  | error : FetchOutcome
  | response : Json → FetchOutcome

/-- `WEATHER_CODES` from `src/weather.py` lines 8-37.  Keys are Python ints,
compared numerically. -/
def WEATHER_CODES : List (Rat × String) :=
  [ (0, "Clear"), (1, "Mainly clear"), (2, "Partly cloudy"), (3, "Overcast"),
    (45, "Fog"), (48, "Rime fog"), (51, "Light drizzle"), (53, "Drizzle"),
    (55, "Heavy drizzle"), (56, "Freezing drizzle"), (57, "Freezing drizzle"),
    (61, "Light rain"), (63, "Rain"), (65, "Heavy rain"), (66, "Freezing rain"),
    (67, "Freezing rain"), (71, "Light snow"), (73, "Snow"), (75, "Heavy snow"),
    (77, "Snow grains"), (80, "Rain showers"), (81, "Rain showers"),
    (82, "Violent showers"), (85, "Snow showers"), (86, "Snow showers"),
    (95, "Thunderstorm"), (96, "Thunderstorm hail"), (99, "Thunderstorm hail") ]

/-- `WEATHER_CODES.get(code, "Weather")`: numeric equality (Python `95.0` and
`True` hash-compare equal to the int keys `95` and `1`); any non-numeric
`code` is simply not a key, giving the default. -/
def weatherDesc (code : Json) : String :=
  match code with
  | Json.num q => ((WEATHER_CODES.lookup q).getD "Weather")
  | Json.bool b => ((WEATHER_CODES.lookup (if b then 1 else 0)).getD "Weather")
  | _ => "Weather"

/-- Python `units == "imperial"` for an arbitrary JSON value. -/
def isImperial : Json → Bool
  | Json.str s => s = "imperial"
  | _ => false

/-- Python truthiness of a JSON value (`if not weather_cfg.get(...)`). -/
def truthy : Json → Bool
  | Json.null => false
  | Json.bool b => b
  | Json.num q => decide (q ≠ 0)
  | Json.str s => decide (s ≠ "")
  | Json.arr xs => !xs.isEmpty
  | Json.obj kvs => !kvs.isEmpty

/-- A JSON value on the right of Python `>=` against a float: numbers and
bools compare numerically, anything else raises `TypeError`. -/
def asCompareNum : Json → Option Rat
  | Json.num q => some q
  | Json.bool b => some (if b then 1 else 0)
  | _ => none

/-- `WeatherProvider._fetch_weather(weather_cfg)` (`src/weather.py` lines
85-121).  The whole body runs inside `try: … except Exception: return
"Weather: --"`, so every exceptional sub-case below collapses to the
sentinel.  `fmt` stands for the external `f"{temp:.0f}"` formatting of a
number (bools format as their 0/1 value in Python). -/
def fetch_weather (fmt : Rat → String) (weatherCfg : List (String × Json))
    (outcome : FetchOutcome) : String :=
  match outcome with
  | FetchOutcome.error => "Weather: --"
  | FetchOutcome.response data =>
      match data with
      | Json.obj kvs =>
          let fields : Option (Json × String × String) :=
            match lookup kvs "current_weather" with
            | some v => some (v, "temperature", "weathercode")
            | none =>
                match lookup kvs "current" with
                | some v => some (v, "temperature_2m", "weather_code")
                | none => none
          match fields with
          | none => "Weather: --"
          | some (cw, tempKey, codeKey) =>
              match cw with
              | Json.obj cwKvs =>
                  let temp := (lookup cwKvs tempKey).getD Json.null
                  let code := (lookup cwKvs codeKey).getD Json.null
                  let units := (lookup weatherCfg "units").getD
                    (Json.str "imperial")
                  let unitSymbol := if isImperial units then "°F" else "°C"
                  match temp with
                  | Json.null => "Weather: --"
                  | Json.num q =>
                      fmt q ++ unitSymbol ++ " " ++ weatherDesc code
                  | Json.bool b =>
                      fmt (if b then 1 else 0) ++ unitSymbol ++ " " ++
                        weatherDesc code
                  | _ => "Weather: --"
              | _ => "Weather: --"
      | _ => "Weather: --"

/-- The producer's mutable state: the summary cell and `_last_update`
(`src/weather.py` lines 43-44; initially `"Weather: --"` and `0`). -/
structure WeatherState where
  summary : String
  lastUpdate : Rat

/-- `WeatherProvider.__init__` state. -/
def initWeatherState : WeatherState :=
  { summary := "Weather: --", lastUpdate := 0 }

/-- One iteration of `WeatherProvider._run`'s loop (`src/weather.py` lines
68-83), given the current config tree, the clock value `now` and the fetch
oracle.  Returns the new state plus whether `_fetch_weather` ran this cycle;
`none` models an exception escaping the loop (missing/malformed `weather`
section or a non-numeric `refresh_s`), which would kill the thread. -/
def runCycle (fmt : Rat → String) (st : WeatherState) (config : Json)
    (now : Rat) (outcome : FetchOutcome) : Option (WeatherState × Bool) :=
  match config with
  | Json.obj cfgKvs =>
      match lookup cfgKvs "weather" with
      | some (Json.obj weatherCfg) =>
          if !truthy ((lookup weatherCfg "enabled").getD (Json.bool true)) then
            some ({ st with summary := "Weather: off" }, false)
          else
            match asCompareNum
                ((lookup weatherCfg "refresh_s").getD (Json.num 300)) with
            | none => none
            | some refresh =>
                if now - st.lastUpdate ≥ refresh then
                  some ({ summary := fetch_weather fmt weatherCfg outcome,
                          lastUpdate := now }, true)
                else
                  some (st, false)
      | some _ => none
      | none => none
  | _ => none

/-! ## Web control-plane save handler (`src/web_config.py` lines 61-102,
duplicated verbatim as `src/main.py` lines 624-665)

`request.form.get(name)` is `Option String`; a missing checkbox is `none`,
`True if … else False` is string truthiness.  `pf` models Python
`float(str)` with `none` for `ValueError`.  File parts are modelled by their
`filename` (`none` when the part is absent). -/

structure SaveForm where
  weather_enabled : Option String
  bg_enabled : Option String
  audio_enabled : Option String
  lat : Option String
  lon : Option String
  units : Option String
  background_filename : Option String
  boot_sound_filename : Option String

/-- Python truthiness of `request.form.get(name)`. -/
def formTruthy (o : Option String) : Bool :=
  o.getD "" ≠ ""

/-- `if file and file.filename:` — a `FileStorage` is truthy iff its filename
is non-empty, so a file is saved iff a part with a non-empty filename was
uploaded. -/
def fileGiven (o : Option String) : Bool :=
  o.getD "" ≠ ""

/-- Everything the `/save` handler does, in order: the files it writes, the
patch it passes to `update_config`, and the response body it returns. -/
structure SaveResult where
  savedFiles : List String
  patch : Json
  response : String

/-- The `lat`/`lon` parse of the `/save` handler:
`try: lat = float(form.get("lat", "0")); lon = float(form.get("lon", "0"))`
`except ValueError: lat, lon = 0.0, 0.0` — one `except` for both, so a
failure of either leaves both at `0.0`. -/
def parseLatLon (pf : String → Option Rat) (form : SaveForm) : Rat × Rat :=
  match pf (form.lat.getD "0") with
  | none => (0, 0)
  | some a =>
      match pf (form.lon.getD "0") with
      | none => (0, 0)
      | some b => (a, b)

/-- The patch the `/save` handler passes to `update_config`
(`src/web_config.py` lines 85-100). -/
def savePatchEntries (pf : String → Option Rat) (form : SaveForm) :
    List (String × Json) :=
  [ ("weather", Json.obj
      [ ("enabled", Json.bool (formTruthy form.weather_enabled)),
        ("latitude", Json.num (parseLatLon pf form).1),
        ("longitude", Json.num (parseLatLon pf form).2),
        ("units", Json.str (form.units.getD "imperial")) ]),
    ("background", Json.obj
      [ ("enabled", Json.bool (formTruthy form.bg_enabled)),
        ("path", Json.str BACKGROUND_PATH) ]),
    ("audio", Json.obj
      [ ("enabled", Json.bool (formTruthy form.audio_enabled)),
        ("path", Json.str BOOT_SOUND_PATH) ]) ]

/-- The `POST /save` handler body (`src/web_config.py` lines 61-102). -/
def save (pf : String → Option Rat) (form : SaveForm) : SaveResult :=
  { savedFiles :=
      (if fileGiven form.background_filename then [BACKGROUND_PATH] else []) ++
      (if fileGiven form.boot_sound_filename then [BOOT_SOUND_PATH] else []),
    patch := Json.obj (savePatchEntries pf form),
    response := "<p>Saved. <a href='/'>Back</a></p>" }

/-! ## Basic lemmas about `lookup`, `setKey` and `deepUpdateObj` -/

theorem lookup_setKey_self (t : List (String × Json)) (k : String) (v : Json) :
    lookup (setKey t k v) k = some v := by
  induction t with
  | nil => simp [setKey, lookup]
  | cons kv rest ih =>
      obtain ⟨k', v'⟩ := kv
      by_cases h : k' = k <;> simp [setKey, lookup, h, ih]

theorem lookup_setKey_ne (t : List (String × Json)) {k' k : String} (v : Json)
    (h : k' ≠ k) : lookup (setKey t k' v) k = lookup t k := by
  induction t with
  | nil => simp [setKey, lookup, h]
  | cons kv rest ih =>
      obtain ⟨k'', v''⟩ := kv
      by_cases h2 : k'' = k' <;> simp [setKey, lookup, h, h2, ih]

theorem lookup_mergeStep_ne (t : List (String × Json)) {k' k : String}
    (v : Json) (h : k' ≠ k) : lookup (mergeStep t k' v) k = lookup t k := by
  unfold mergeStep
  split <;> exact lookup_setKey_ne _ _ h

/-- The recursion branch of the `_deep_update` loop body. -/
theorem mergeStep_recurse (t : List (String × Json)) (k : String)
    (uObj tObj : List (String × Json)) (ht : lookup t k = some (Json.obj tObj)) :
    mergeStep t k (Json.obj uObj) =
      setKey t k (Json.obj (deepUpdateObj tObj uObj)) := by
  unfold mergeStep
  rw [ht]

/-- The replacement branch of the `_deep_update` loop body. -/
theorem mergeStep_replace (t : List (String × Json)) (k : String) (v : Json)
    (hb : bothObj v (lookup t k) = false) : mergeStep t k v = setKey t k v := by
  unfold mergeStep
  split
  · simp_all [bothObj]
  · rfl

theorem lookup_cons_of_ne {k' k : String} {v : Json}
    {rest : List (String × Json)} (h : k' ≠ k) :
    lookup ((k', v) :: rest) k = lookup rest k := by
  simp [lookup, h]

theorem lookup_cons_self {k : String} {v : Json}
    {rest : List (String × Json)} : lookup ((k, v) :: rest) k = some v := by
  simp [lookup]

/-- Keys absent from the update dict are left untouched by `_deep_update`. -/
theorem lookup_deepUpdateObj_none (t u : List (String × Json)) (k : String)
    (h : lookup u k = none) : lookup (deepUpdateObj t u) k = lookup t k := by
  induction u generalizing t with
  | nil => simp [deepUpdateObj]
  | cons kv rest ih =>
      obtain ⟨k', v⟩ := kv
      by_cases hk : k' = k
      · subst hk; simp [lookup] at h
      · rw [lookup_cons_of_ne hk] at h
        rw [deepUpdateObj, ih _ h, lookup_mergeStep_ne _ _ hk]

/-- When both the existing value and the update value at a key are dicts,
`_deep_update` recurses into them. -/
theorem lookup_deepUpdateObj_recurse (t u : List (String × Json))
    (k : String) (uObj tObj : List (String × Json))
    (hu : distinctKeys u = true) (hk : lookup u k = some (Json.obj uObj))
    (ht : lookup t k = some (Json.obj tObj)) :
    lookup (deepUpdateObj t u) k =
      some (Json.obj (deepUpdateObj tObj uObj)) := by
  induction u generalizing t with
  | nil => simp [lookup] at hk
  | cons kv rest ih =>
      obtain ⟨k', v⟩ := kv
      have hd : (lookup rest k').isNone = true ∧ distinctKeys rest = true := by
        simpa [distinctKeys, Bool.and_eq_true] using hu
      by_cases hkk : k' = k
      · subst hkk
        rw [lookup_cons_self] at hk
        obtain rfl : v = Json.obj uObj := by injection hk
        rw [deepUpdateObj]
        have hnone : lookup rest k' = none := by
          cases hrest : lookup rest k' <;> simp [hrest] at hd ⊢
        rw [lookup_deepUpdateObj_none _ _ _ hnone]
        rw [mergeStep_recurse _ _ _ _ ht]
        exact lookup_setKey_self _ _ _
      · rw [lookup_cons_of_ne hkk] at hk
        rw [deepUpdateObj]
        exact ih _ hd.2 hk (by rw [lookup_mergeStep_ne _ _ hkk]; exact ht)

/-- When the existing value and the update value at a key are not both
dicts, the update value replaces the existing one wholesale. -/
theorem lookup_deepUpdateObj_replace (t u : List (String × Json))
    (k : String) (v : Json) (hu : distinctKeys u = true)
    (hk : lookup u k = some v) (hb : bothObj v (lookup t k) = false) :
    lookup (deepUpdateObj t u) k = some v := by
  induction u generalizing t with
  | nil => simp [lookup] at hk
  | cons kv rest ih =>
      obtain ⟨k', w⟩ := kv
      have hd : (lookup rest k').isNone = true ∧ distinctKeys rest = true := by
        simpa [distinctKeys, Bool.and_eq_true] using hu
      by_cases hkk : k' = k
      · subst hkk
        rw [lookup_cons_self] at hk
        obtain rfl : w = v := by injection hk
        rw [deepUpdateObj]
        have hnone : lookup rest k' = none := by
          cases hrest : lookup rest k' <;> simp [hrest] at hd ⊢
        rw [lookup_deepUpdateObj_none _ _ _ hnone]
        rw [mergeStep_replace _ _ _ hb]
        exact lookup_setKey_self _ _ _
      · rw [lookup_cons_of_ne hkk] at hk
        rw [deepUpdateObj]
        exact ih _ hd.2 hk
          (by rw [lookup_mergeStep_ne _ _ hkk]; exact hb)

/-! ## Well-formedness and path lemmas -/

theorem wfEntries_distinctKeys {u : List (String × Json)}
    (h : wfEntries u = true) : distinctKeys u = true := by
  induction u with
  | nil => rfl
  | cons kv rest ih =>
      obtain ⟨k, v⟩ := kv
      rw [wfEntries] at h
      simp only [Bool.and_eq_true] at h
      rw [distinctKeys]
      simp only [Bool.and_eq_true]
      exact ⟨h.1.1, ih h.2⟩

theorem wfEntries_lookup {u : List (String × Json)} {k : String} {v : Json}
    (h : wfEntries u = true) (hk : lookup u k = some v) : wfJson v = true := by
  induction u with
  | nil => simp [lookup] at hk
  | cons kv rest ih =>
      obtain ⟨k', v'⟩ := kv
      rw [wfEntries] at h
      simp only [Bool.and_eq_true] at h
      by_cases hkk : k' = k
      · subst hkk
        rw [lookup_cons_self] at hk
        obtain rfl : v' = v := by injection hk
        exact h.1.2
      · rw [lookup_cons_of_ne hkk] at hk
        exact ih h.2 hk

theorem touchesPath_of_not_obj {j : Json} (h : isObj j = false)
    (p : List String) : touchesPath j p = true := by
  cases p with
  | nil => cases j <;> rfl
  | cons k rest => cases j <;> first | rfl | simp [isObj] at h

theorem lookupPath_cons_of_not_obj {j : Json} (h : isObj j = false)
    (k : String) (rest : List String) : lookupPath j (k :: rest) = none := by
  cases j <;> first | rfl | simp [isObj] at h

theorem lookupPath_none_of_untouched {p : List String} {j : Json}
    (h : touchesPath j p = false) : lookupPath j p = none := by
  induction p generalizing j with
  | nil => simp [touchesPath] at h
  | cons k rest ih =>
      cases j with
      | obj kvs =>
          cases hw : lookup kvs k with
          | none => simp [lookupPath, hw]
          | some v =>
              rw [touchesPath, hw] at h
              simpa [lookupPath, hw] using ih h
      | null => rfl
      | bool b => simp [touchesPath] at h
      | num q => simp [touchesPath] at h
      | str s => simp [touchesPath] at h
      | arr xs => simp [touchesPath] at h

/-- A leaf placed exactly at a path by the update dict ends up at that path
in the merged dict, whatever the target held there before. -/
theorem lookupPath_deepUpdateObj_patch_leaf (p : List String) :
    ∀ (t u : List (String × Json)) (v : Json), wfEntries u = true →
      lookupPath (Json.obj u) p = some v → isObj v = false →
      lookupPath (Json.obj (deepUpdateObj t u)) p = some v := by
  induction p with
  | nil =>
      intro t u v _ hp hleaf
      rw [lookupPath] at hp
      obtain rfl : Json.obj u = v := by injection hp
      simp [isObj] at hleaf
  | cons k rest ih =>
      intro t u v hwf hp hleaf
      have hdk := wfEntries_distinctKeys hwf
      rw [lookupPath] at hp
      cases hw : lookup u k with
      | none => rw [hw] at hp; exact absurd hp (by simp)
      | some w =>
          rw [hw] at hp
          cases w with
          | obj wo =>
              have hwfw : wfEntries wo = true := by
                have := wfEntries_lookup hwf hw
                rwa [wfJson] at this
              cases ht : lookup t k with
              | some tv =>
                  cases tv with
                  | obj tObj =>
                      have hm := lookup_deepUpdateObj_recurse t u k wo tObj
                        hdk hw ht
                      rw [lookupPath, hm]
                      exact ih tObj wo v hwfw hp hleaf
                  | null =>
                      have hm := lookup_deepUpdateObj_replace t u k
                        (Json.obj wo) hdk hw (by rw [ht]; rfl)
                      rw [lookupPath, hm]; exact hp
                  | bool b =>
                      have hm := lookup_deepUpdateObj_replace t u k
                        (Json.obj wo) hdk hw (by rw [ht]; rfl)
                      rw [lookupPath, hm]; exact hp
                  | num q =>
                      have hm := lookup_deepUpdateObj_replace t u k
                        (Json.obj wo) hdk hw (by rw [ht]; rfl)
                      rw [lookupPath, hm]; exact hp
                  | str s =>
                      have hm := lookup_deepUpdateObj_replace t u k
                        (Json.obj wo) hdk hw (by rw [ht]; rfl)
                      rw [lookupPath, hm]; exact hp
                  | arr xs =>
                      have hm := lookup_deepUpdateObj_replace t u k
                        (Json.obj wo) hdk hw (by rw [ht]; rfl)
                      rw [lookupPath, hm]; exact hp
              | none =>
                  have hm := lookup_deepUpdateObj_replace t u k
                    (Json.obj wo) hdk hw (by rw [ht]; rfl)
                  rw [lookupPath, hm]; exact hp
          | null =>
              have hm := lookup_deepUpdateObj_replace t u k Json.null hdk hw
                (by cases lookup t k <;> rfl)
              rw [lookupPath, hm]; exact hp
          | bool b =>
              have hm := lookup_deepUpdateObj_replace t u k (Json.bool b) hdk
                hw (by cases lookup t k <;> rfl)
              rw [lookupPath, hm]; exact hp
          | num q =>
              have hm := lookup_deepUpdateObj_replace t u k (Json.num q) hdk
                hw (by cases lookup t k <;> rfl)
              rw [lookupPath, hm]; exact hp
          | str s =>
              have hm := lookup_deepUpdateObj_replace t u k (Json.str s) hdk
                hw (by cases lookup t k <;> rfl)
              rw [lookupPath, hm]; exact hp
          | arr xs =>
              have hm := lookup_deepUpdateObj_replace t u k (Json.arr xs) hdk
                hw (by cases lookup t k <;> rfl)
              rw [lookupPath, hm]; exact hp

/-- A path the update dict does not touch reads the same before and after
the merge. -/
theorem lookupPath_deepUpdateObj_untouched (p : List String) :
    ∀ (t u : List (String × Json)), wfEntries u = true →
      touchesPath (Json.obj u) p = false →
      lookupPath (Json.obj (deepUpdateObj t u)) p =
        lookupPath (Json.obj t) p := by
  induction p with
  | nil => intro t u _ h; simp [touchesPath] at h
  | cons k rest ih =>
      intro t u hwf h
      have hdk := wfEntries_distinctKeys hwf
      cases hw : lookup u k with
      | none =>
          have hm := lookup_deepUpdateObj_none t u k hw
          simp only [lookupPath, hm]
      | some w =>
          simp only [touchesPath, hw] at h
          cases w with
          | obj wo =>
              have hwfw : wfEntries wo = true := by
                have := wfEntries_lookup hwf hw
                rwa [wfJson] at this
              cases ht : lookup t k with
              | some tv =>
                  cases tv with
                  | obj tObj =>
                      have hm := lookup_deepUpdateObj_recurse t u k wo tObj
                        hdk hw ht
                      simp only [lookupPath, hm, ht]
                      exact ih tObj wo hwfw h
                  | null =>
                      have hm := lookup_deepUpdateObj_replace t u k
                        (Json.obj wo) hdk hw (by rw [ht]; rfl)
                      simp only [lookupPath, hm, ht,
                        lookupPath_none_of_untouched h]
                      cases rest with
                      | nil => simp [touchesPath] at h
                      | cons r rs => rfl
                  | bool b =>
                      have hm := lookup_deepUpdateObj_replace t u k
                        (Json.obj wo) hdk hw (by rw [ht]; rfl)
                      simp only [lookupPath, hm, ht,
                        lookupPath_none_of_untouched h]
                      cases rest with
                      | nil => simp [touchesPath] at h
                      | cons r rs => rfl
                  | num q =>
                      have hm := lookup_deepUpdateObj_replace t u k
                        (Json.obj wo) hdk hw (by rw [ht]; rfl)
                      simp only [lookupPath, hm, ht,
                        lookupPath_none_of_untouched h]
                      cases rest with
                      | nil => simp [touchesPath] at h
                      | cons r rs => rfl
                  | str s =>
                      have hm := lookup_deepUpdateObj_replace t u k
                        (Json.obj wo) hdk hw (by rw [ht]; rfl)
                      simp only [lookupPath, hm, ht,
                        lookupPath_none_of_untouched h]
                      cases rest with
                      | nil => simp [touchesPath] at h
                      | cons r rs => rfl
                  | arr xs =>
                      have hm := lookup_deepUpdateObj_replace t u k
                        (Json.obj wo) hdk hw (by rw [ht]; rfl)
                      simp only [lookupPath, hm, ht,
                        lookupPath_none_of_untouched h]
                      cases rest with
                      | nil => simp [touchesPath] at h
                      | cons r rs => rfl
              | none =>
                  have hm := lookup_deepUpdateObj_replace t u k
                    (Json.obj wo) hdk hw (by rw [ht]; rfl)
                  simp only [lookupPath, hm, ht,
                    lookupPath_none_of_untouched h]
          | null =>
              rw [touchesPath_of_not_obj (j := Json.null) rfl rest] at h
              cases h
          | bool b =>
              rw [touchesPath_of_not_obj (j := Json.bool b) rfl rest] at h
              cases h
          | num q =>
              rw [touchesPath_of_not_obj (j := Json.num q) rfl rest] at h
              cases h
          | str s =>
              rw [touchesPath_of_not_obj (j := Json.str s) rfl rest] at h
              cases h
          | arr xs =>
              rw [touchesPath_of_not_obj (j := Json.arr xs) rfl rest] at h
              cases h

/-! ## Idempotence machinery -/

/-- Destructuring of well-formedness at a cons. -/
theorem wfEntries_cons {k : String} {v : Json} {rest : List (String × Json)}
    (h : wfEntries ((k, v) :: rest) = true) :
    lookup rest k = none ∧ wfJson v = true ∧ wfEntries rest = true := by
  rw [wfEntries] at h
  simp only [Bool.and_eq_true] at h
  refine ⟨?_, h.1.2, h.2⟩
  have hn := h.1.1
  cases hrest : lookup rest k with
  | none => rfl
  | some w => rw [hrest] at hn; simp at hn

/-- Re-assigning the value a key already holds changes nothing. -/
theorem setKey_self_of_lookup {t : List (String × Json)} {k : String}
    {v : Json} (h : lookup t k = some v) : setKey t k v = t := by
  induction t with
  | nil => simp [lookup] at h
  | cons kv rest ih =>
      obtain ⟨k', v'⟩ := kv
      by_cases hk : k' = k
      · subst hk
        rw [lookup_cons_self] at h
        obtain rfl : v' = v := by injection h
        simp [setKey]
      · rw [lookup_cons_of_ne hk] at h
        simp [setKey, hk, ih h]

/-- `setKey` keeps a dict well-formed. -/
theorem wf_setKey {t : List (String × Json)} (k : String) {v : Json}
    (ht : wfEntries t = true) (hv : wfJson v = true) :
    wfEntries (setKey t k v) = true := by
  induction t with
  | nil => simp [setKey, wfEntries, lookup, hv]
  | cons kv rest ih =>
      obtain ⟨k', v'⟩ := kv
      obtain ⟨h1, h2, h3⟩ := wfEntries_cons ht
      by_cases hk : k' = k
      · have hs : setKey ((k', v') :: rest) k v = (k, v) :: rest := by
          simp [setKey, hk]
        rw [hs, wfEntries]
        simp only [Bool.and_eq_true]
        refine ⟨⟨?_, hv⟩, h3⟩
        rw [← hk, h1]
        rfl
      · have hs : setKey ((k', v') :: rest) k v =
            (k', v') :: setKey rest k v := by
          simp [setKey, hk]
        rw [hs, wfEntries]
        simp only [Bool.and_eq_true]
        refine ⟨⟨?_, h2⟩, ih h3⟩
        rw [lookup_setKey_ne _ _ (fun h => hk h.symm), h1]
        rfl

mutual

/-- `_deep_update` keeps a dict well-formed. -/
theorem wf_deepUpdateObj : ∀ (u t : List (String × Json)),
    wfEntries t = true → wfEntries u = true →
    wfEntries (deepUpdateObj t u) = true
  | [], t, ht, _ => by rw [deepUpdateObj]; exact ht
  | (k, v) :: rest, t, ht, hu => by
      obtain ⟨_, h2, h3⟩ := wfEntries_cons hu
      rw [deepUpdateObj]
      exact wf_deepUpdateObj rest (mergeStep t k v)
        (wf_mergeStep v t k ht h2) h3
termination_by u _ _ _ => sizeOf u
decreasing_by
  all_goals simp_wf <;> omega

/-- One `_deep_update` iteration keeps the target well-formed. -/
theorem wf_mergeStep : ∀ (v : Json) (t : List (String × Json)) (k : String),
    wfEntries t = true → wfJson v = true →
    wfEntries (mergeStep t k v) = true
  | Json.obj vo, t, k, ht, hv => by
      rw [wfJson] at hv
      cases htk : lookup t k with
      | some w =>
          cases w with
          | obj tw =>
              rw [mergeStep_recurse _ _ _ _ htk]
              refine wf_setKey k ht ?_
              rw [wfJson]
              have htw : wfEntries tw = true := by
                have := wfEntries_lookup ht htk
                rwa [wfJson] at this
              exact wf_deepUpdateObj vo tw htw hv
          | null =>
              rw [mergeStep_replace _ _ _ (by rw [htk]; rfl)]
              exact wf_setKey k ht (by rw [wfJson]; exact hv)
          | bool b =>
              rw [mergeStep_replace _ _ _ (by rw [htk]; rfl)]
              exact wf_setKey k ht (by rw [wfJson]; exact hv)
          | num q =>
              rw [mergeStep_replace _ _ _ (by rw [htk]; rfl)]
              exact wf_setKey k ht (by rw [wfJson]; exact hv)
          | str s =>
              rw [mergeStep_replace _ _ _ (by rw [htk]; rfl)]
              exact wf_setKey k ht (by rw [wfJson]; exact hv)
          | arr xs =>
              rw [mergeStep_replace _ _ _ (by rw [htk]; rfl)]
              exact wf_setKey k ht (by rw [wfJson]; exact hv)
      | none =>
          rw [mergeStep_replace _ _ _ (by rw [htk]; rfl)]
          exact wf_setKey k ht (by rw [wfJson]; exact hv)
  | Json.null, t, k, ht, hv => by
      rw [mergeStep_replace _ _ _ (by cases lookup t k <;> rfl)]
      exact wf_setKey k ht hv
  | Json.bool b, t, k, ht, hv => by
      rw [mergeStep_replace _ _ _ (by cases lookup t k <;> rfl)]
      exact wf_setKey k ht hv
  | Json.num q, t, k, ht, hv => by
      rw [mergeStep_replace _ _ _ (by cases lookup t k <;> rfl)]
      exact wf_setKey k ht hv
  | Json.str s, t, k, ht, hv => by
      rw [mergeStep_replace _ _ _ (by cases lookup t k <;> rfl)]
      exact wf_setKey k ht hv
  | Json.arr xs, t, k, ht, hv => by
      rw [mergeStep_replace _ _ _ (by cases lookup t k <;> rfl)]
      exact wf_setKey k ht hv
termination_by v _ _ _ _ => sizeOf v
decreasing_by
  all_goals simp_wf

end

/-- A non-dict update value never triggers the recursion branch. -/
theorem bothObj_of_not_obj {v : Json} (h : isObj v = false)
    (w : Option Json) : bothObj v w = false := by
  cases v with
  | obj kvs => simp [isObj] at h
  | null => cases w with
    | none => rfl
    | some u => cases u <;> rfl
  | bool b => cases w with
    | none => rfl
    | some u => cases u <;> rfl
  | num q => cases w with
    | none => rfl
    | some u => cases u <;> rfl
  | str s => cases w with
    | none => rfl
    | some u => cases u <;> rfl
  | arr xs => cases w with
    | none => rfl
    | some u => cases u <;> rfl

/-- Re-applying a non-dict binding the target already holds is a no-op. -/
theorem mergeStep_nonobj_absorbed {X : List (String × Json)} {k : String}
    {v : Json} (hX : lookup X k = some v) (hno : isObj v = false) :
    mergeStep X k v = X := by
  rw [mergeStep_replace _ _ _ (bothObj_of_not_obj hno _)]
  exact setKey_self_of_lookup hX

/-- Bindings of the tail of an absorbed dict are still absorbed. -/
theorem absorb_tail {k : String} {v : Json}
    {rest X : List (String × Json)} (h1 : lookup rest k = none)
    (habs : ∀ k' w, lookup ((k, v) :: rest) k' = some w →
      lookup X k' = some w) :
    ∀ k' w, lookup rest k' = some w → lookup X k' = some w := by
  intro k' w hk'
  by_cases hkk : k = k'
  · rw [← hkk, h1] at hk'
    cases hk'
  · exact habs k' w (by rw [lookup_cons_of_ne hkk]; exact hk')

/-- Merging a dict whose bindings the target already holds verbatim is a
no-op (in particular, merging a well-formed dict into itself). -/
theorem deepUpdateObj_absorbed : ∀ (r X : List (String × Json)),
    wfEntries r = true →
    (∀ k w, lookup r k = some w → lookup X k = some w) →
    deepUpdateObj X r = X
  | [], _, _, _ => by rw [deepUpdateObj]
  | (k, Json.obj vo) :: rest, X, hr, habs => by
      obtain ⟨h1, h2, h3⟩ := wfEntries_cons hr
      have hX : lookup X k = some (Json.obj vo) := habs k _ lookup_cons_self
      have hself : deepUpdateObj vo vo = vo :=
        deepUpdateObj_absorbed vo vo (by rwa [wfJson] at h2) (fun _ _ h => h)
      rw [deepUpdateObj, mergeStep_recurse _ _ _ _ hX, hself,
        setKey_self_of_lookup hX]
      exact deepUpdateObj_absorbed rest X h3 (absorb_tail h1 habs)
  | (k, Json.null) :: rest, X, hr, habs => by
      obtain ⟨h1, _, h3⟩ := wfEntries_cons hr
      have hX : lookup X k = some Json.null := habs k _ lookup_cons_self
      rw [deepUpdateObj, mergeStep_nonobj_absorbed hX rfl]
      exact deepUpdateObj_absorbed rest X h3 (absorb_tail h1 habs)
  | (k, Json.bool b) :: rest, X, hr, habs => by
      obtain ⟨h1, _, h3⟩ := wfEntries_cons hr
      have hX : lookup X k = some (Json.bool b) := habs k _ lookup_cons_self
      rw [deepUpdateObj, mergeStep_nonobj_absorbed hX rfl]
      exact deepUpdateObj_absorbed rest X h3 (absorb_tail h1 habs)
  | (k, Json.num q) :: rest, X, hr, habs => by
      obtain ⟨h1, _, h3⟩ := wfEntries_cons hr
      have hX : lookup X k = some (Json.num q) := habs k _ lookup_cons_self
      rw [deepUpdateObj, mergeStep_nonobj_absorbed hX rfl]
      exact deepUpdateObj_absorbed rest X h3 (absorb_tail h1 habs)
  | (k, Json.str s) :: rest, X, hr, habs => by
      obtain ⟨h1, _, h3⟩ := wfEntries_cons hr
      have hX : lookup X k = some (Json.str s) := habs k _ lookup_cons_self
      rw [deepUpdateObj, mergeStep_nonobj_absorbed hX rfl]
      exact deepUpdateObj_absorbed rest X h3 (absorb_tail h1 habs)
  | (k, Json.arr xs) :: rest, X, hr, habs => by
      obtain ⟨h1, _, h3⟩ := wfEntries_cons hr
      have hX : lookup X k = some (Json.arr xs) := habs k _ lookup_cons_self
      rw [deepUpdateObj, mergeStep_nonobj_absorbed hX rfl]
      exact deepUpdateObj_absorbed rest X h3 (absorb_tail h1 habs)
termination_by r _ _ _ => sizeOf r
decreasing_by
  all_goals simp_wf <;> omega

/-- `_deep_update` is idempotent on well-formed dicts: merging the same
update dict a second time changes nothing. -/
theorem deepUpdateObj_idem : ∀ (u t : List (String × Json)),
    wfEntries t = true → wfEntries u = true →
    deepUpdateObj (deepUpdateObj t u) u = deepUpdateObj t u
  | [], _, _, _ => by rw [deepUpdateObj]
  | (k, Json.obj vo) :: rest, t, ht, hu => by
      obtain ⟨h1, h2, h3⟩ := wfEntries_cons hu
      have hwfvo : wfEntries vo = true := by rwa [wfJson] at h2
      have hA0 : lookup (deepUpdateObj (mergeStep t k (Json.obj vo)) rest) k =
          lookup (mergeStep t k (Json.obj vo)) k :=
        lookup_deepUpdateObj_none _ _ _ h1
      have hstep :
          mergeStep (deepUpdateObj (mergeStep t k (Json.obj vo)) rest) k
            (Json.obj vo) =
          deepUpdateObj (mergeStep t k (Json.obj vo)) rest := by
        cases htk : lookup t k with
        | some w =>
            cases w with
            | obj tw =>
                have hwftw : wfEntries tw = true := by
                  have := wfEntries_lookup ht htk
                  rwa [wfJson] at this
                have hv : lookup (mergeStep t k (Json.obj vo)) k =
                    some (Json.obj (deepUpdateObj tw vo)) := by
                  rw [mergeStep_recurse _ _ _ _ htk]
                  exact lookup_setKey_self _ _ _
                rw [mergeStep_recurse _ _ _ _ (hA0.trans hv),
                  deepUpdateObj_idem vo tw hwftw hwfvo]
                exact setKey_self_of_lookup (hA0.trans hv)
            | null =>
                have hv : lookup (mergeStep t k (Json.obj vo)) k =
                    some (Json.obj vo) := by
                  rw [mergeStep_replace _ _ _ (by rw [htk]; rfl)]
                  exact lookup_setKey_self _ _ _
                rw [mergeStep_recurse _ _ _ _ (hA0.trans hv),
                  deepUpdateObj_absorbed vo vo hwfvo (fun _ _ h => h)]
                exact setKey_self_of_lookup (hA0.trans hv)
            | bool b =>
                have hv : lookup (mergeStep t k (Json.obj vo)) k =
                    some (Json.obj vo) := by
                  rw [mergeStep_replace _ _ _ (by rw [htk]; rfl)]
                  exact lookup_setKey_self _ _ _
                rw [mergeStep_recurse _ _ _ _ (hA0.trans hv),
                  deepUpdateObj_absorbed vo vo hwfvo (fun _ _ h => h)]
                exact setKey_self_of_lookup (hA0.trans hv)
            | num q =>
                have hv : lookup (mergeStep t k (Json.obj vo)) k =
                    some (Json.obj vo) := by
                  rw [mergeStep_replace _ _ _ (by rw [htk]; rfl)]
                  exact lookup_setKey_self _ _ _
                rw [mergeStep_recurse _ _ _ _ (hA0.trans hv),
                  deepUpdateObj_absorbed vo vo hwfvo (fun _ _ h => h)]
                exact setKey_self_of_lookup (hA0.trans hv)
            | str s =>
                have hv : lookup (mergeStep t k (Json.obj vo)) k =
                    some (Json.obj vo) := by
                  rw [mergeStep_replace _ _ _ (by rw [htk]; rfl)]
                  exact lookup_setKey_self _ _ _
                rw [mergeStep_recurse _ _ _ _ (hA0.trans hv),
                  deepUpdateObj_absorbed vo vo hwfvo (fun _ _ h => h)]
                exact setKey_self_of_lookup (hA0.trans hv)
            | arr xs =>
                have hv : lookup (mergeStep t k (Json.obj vo)) k =
                    some (Json.obj vo) := by
                  rw [mergeStep_replace _ _ _ (by rw [htk]; rfl)]
                  exact lookup_setKey_self _ _ _
                rw [mergeStep_recurse _ _ _ _ (hA0.trans hv),
                  deepUpdateObj_absorbed vo vo hwfvo (fun _ _ h => h)]
                exact setKey_self_of_lookup (hA0.trans hv)
        | none =>
            have hv : lookup (mergeStep t k (Json.obj vo)) k =
                some (Json.obj vo) := by
              rw [mergeStep_replace _ _ _ (by rw [htk]; rfl)]
              exact lookup_setKey_self _ _ _
            rw [mergeStep_recurse _ _ _ _ (hA0.trans hv),
              deepUpdateObj_absorbed vo vo hwfvo (fun _ _ h => h)]
            exact setKey_self_of_lookup (hA0.trans hv)
      calc deepUpdateObj
            (deepUpdateObj t ((k, Json.obj vo) :: rest))
            ((k, Json.obj vo) :: rest)
          = deepUpdateObj
              (mergeStep (deepUpdateObj (mergeStep t k (Json.obj vo)) rest) k
                (Json.obj vo)) rest := by
            rw [deepUpdateObj, deepUpdateObj]
        _ = deepUpdateObj
              (deepUpdateObj (mergeStep t k (Json.obj vo)) rest) rest := by
            rw [hstep]
        _ = deepUpdateObj (mergeStep t k (Json.obj vo)) rest :=
            deepUpdateObj_idem rest (mergeStep t k (Json.obj vo))
              (wf_mergeStep _ t k ht h2) h3
        _ = deepUpdateObj t ((k, Json.obj vo) :: rest) := by
            rw [deepUpdateObj]
  | (k, Json.null) :: rest, t, ht, hu => by
      obtain ⟨h1, h2, h3⟩ := wfEntries_cons hu
      have hv : lookup (mergeStep t k Json.null) k = some Json.null := by
        rw [mergeStep_replace _ _ _ (bothObj_of_not_obj (v := Json.null) rfl _)]
        exact lookup_setKey_self _ _ _
      have hA0 : lookup (deepUpdateObj (mergeStep t k Json.null) rest) k =
          lookup (mergeStep t k Json.null) k :=
        lookup_deepUpdateObj_none _ _ _ h1
      have hstep := mergeStep_nonobj_absorbed (hA0.trans hv) rfl
      calc deepUpdateObj (deepUpdateObj t ((k, Json.null) :: rest))
            ((k, Json.null) :: rest)
          = deepUpdateObj
              (mergeStep (deepUpdateObj (mergeStep t k Json.null) rest) k
                Json.null) rest := by
            rw [deepUpdateObj, deepUpdateObj]
        _ = deepUpdateObj
              (deepUpdateObj (mergeStep t k Json.null) rest) rest := by
            rw [hstep]
        _ = deepUpdateObj (mergeStep t k Json.null) rest :=
            deepUpdateObj_idem rest (mergeStep t k Json.null)
              (wf_mergeStep _ t k ht h2) h3
        _ = deepUpdateObj t ((k, Json.null) :: rest) := by
            rw [deepUpdateObj]
  | (k, Json.bool b) :: rest, t, ht, hu => by
      obtain ⟨h1, h2, h3⟩ := wfEntries_cons hu
      have hv : lookup (mergeStep t k (Json.bool b)) k =
          some (Json.bool b) := by
        rw [mergeStep_replace _ _ _
          (bothObj_of_not_obj (v := Json.bool b) rfl _)]
        exact lookup_setKey_self _ _ _
      have hA0 : lookup (deepUpdateObj (mergeStep t k (Json.bool b)) rest) k =
          lookup (mergeStep t k (Json.bool b)) k :=
        lookup_deepUpdateObj_none _ _ _ h1
      have hstep := mergeStep_nonobj_absorbed (hA0.trans hv) rfl
      calc deepUpdateObj (deepUpdateObj t ((k, Json.bool b) :: rest))
            ((k, Json.bool b) :: rest)
          = deepUpdateObj
              (mergeStep (deepUpdateObj (mergeStep t k (Json.bool b)) rest) k
                (Json.bool b)) rest := by
            rw [deepUpdateObj, deepUpdateObj]
        _ = deepUpdateObj
              (deepUpdateObj (mergeStep t k (Json.bool b)) rest) rest := by
            rw [hstep]
        _ = deepUpdateObj (mergeStep t k (Json.bool b)) rest :=
            deepUpdateObj_idem rest (mergeStep t k (Json.bool b))
              (wf_mergeStep _ t k ht h2) h3
        _ = deepUpdateObj t ((k, Json.bool b) :: rest) := by
            rw [deepUpdateObj]
  | (k, Json.num q) :: rest, t, ht, hu => by
      obtain ⟨h1, h2, h3⟩ := wfEntries_cons hu
      have hv : lookup (mergeStep t k (Json.num q)) k =
          some (Json.num q) := by
        rw [mergeStep_replace _ _ _
          (bothObj_of_not_obj (v := Json.num q) rfl _)]
        exact lookup_setKey_self _ _ _
      have hA0 : lookup (deepUpdateObj (mergeStep t k (Json.num q)) rest) k =
          lookup (mergeStep t k (Json.num q)) k :=
        lookup_deepUpdateObj_none _ _ _ h1
      have hstep := mergeStep_nonobj_absorbed (hA0.trans hv) rfl
      calc deepUpdateObj (deepUpdateObj t ((k, Json.num q) :: rest))
            ((k, Json.num q) :: rest)
          = deepUpdateObj
              (mergeStep (deepUpdateObj (mergeStep t k (Json.num q)) rest) k
                (Json.num q)) rest := by
            rw [deepUpdateObj, deepUpdateObj]
        _ = deepUpdateObj
              (deepUpdateObj (mergeStep t k (Json.num q)) rest) rest := by
            rw [hstep]
        _ = deepUpdateObj (mergeStep t k (Json.num q)) rest :=
            deepUpdateObj_idem rest (mergeStep t k (Json.num q))
              (wf_mergeStep _ t k ht h2) h3
        _ = deepUpdateObj t ((k, Json.num q) :: rest) := by
            rw [deepUpdateObj]
  | (k, Json.str s) :: rest, t, ht, hu => by
      obtain ⟨h1, h2, h3⟩ := wfEntries_cons hu
      have hv : lookup (mergeStep t k (Json.str s)) k =
          some (Json.str s) := by
        rw [mergeStep_replace _ _ _
          (bothObj_of_not_obj (v := Json.str s) rfl _)]
        exact lookup_setKey_self _ _ _
      have hA0 : lookup (deepUpdateObj (mergeStep t k (Json.str s)) rest) k =
          lookup (mergeStep t k (Json.str s)) k :=
        lookup_deepUpdateObj_none _ _ _ h1
      have hstep := mergeStep_nonobj_absorbed (hA0.trans hv) rfl
      calc deepUpdateObj (deepUpdateObj t ((k, Json.str s) :: rest))
            ((k, Json.str s) :: rest)
          = deepUpdateObj
              (mergeStep (deepUpdateObj (mergeStep t k (Json.str s)) rest) k
                (Json.str s)) rest := by
            rw [deepUpdateObj, deepUpdateObj]
        _ = deepUpdateObj
              (deepUpdateObj (mergeStep t k (Json.str s)) rest) rest := by
            rw [hstep]
        _ = deepUpdateObj (mergeStep t k (Json.str s)) rest :=
            deepUpdateObj_idem rest (mergeStep t k (Json.str s))
              (wf_mergeStep _ t k ht h2) h3
        _ = deepUpdateObj t ((k, Json.str s) :: rest) := by
            rw [deepUpdateObj]
  | (k, Json.arr xs) :: rest, t, ht, hu => by
      obtain ⟨h1, h2, h3⟩ := wfEntries_cons hu
      have hv : lookup (mergeStep t k (Json.arr xs)) k =
          some (Json.arr xs) := by
        rw [mergeStep_replace _ _ _
          (bothObj_of_not_obj (v := Json.arr xs) rfl _)]
        exact lookup_setKey_self _ _ _
      have hA0 : lookup (deepUpdateObj (mergeStep t k (Json.arr xs)) rest) k =
          lookup (mergeStep t k (Json.arr xs)) k :=
        lookup_deepUpdateObj_none _ _ _ h1
      have hstep := mergeStep_nonobj_absorbed (hA0.trans hv) rfl
      calc deepUpdateObj (deepUpdateObj t ((k, Json.arr xs) :: rest))
            ((k, Json.arr xs) :: rest)
          = deepUpdateObj
              (mergeStep (deepUpdateObj (mergeStep t k (Json.arr xs)) rest) k
                (Json.arr xs)) rest := by
            rw [deepUpdateObj, deepUpdateObj]
        _ = deepUpdateObj
              (deepUpdateObj (mergeStep t k (Json.arr xs)) rest) rest := by
            rw [hstep]
        _ = deepUpdateObj (mergeStep t k (Json.arr xs)) rest :=
            deepUpdateObj_idem rest (mergeStep t k (Json.arr xs))
              (wf_mergeStep _ t k ht h2) h3
        _ = deepUpdateObj t ((k, Json.arr xs) :: rest) := by
            rw [deepUpdateObj]
termination_by u _ _ _ => sizeOf u
decreasing_by
  all_goals simp_wf <;> omega

/-! ## Claim theorems -/

/-- C2: the deep-merge used by `load()` and `apply()` satisfies, at every
key: if both the existing value and the patch value are dicts, the merge
recurses; otherwise the patch value replaces the existing value wholesale
(scalars, lists — in particular list values are never concatenated — and
type-mismatched values included); and every key of the base absent from the
patch keeps its existing value unchanged. -/
theorem c2_deep_update_key_semantics (t u : List (String × Json))
    (k : String) (hu : distinctKeys u = true) :
    (∀ uObj tObj, lookup u k = some (Json.obj uObj) →
        lookup t k = some (Json.obj tObj) →
        lookup (deepUpdateObj t u) k =
          some (Json.obj (deepUpdateObj tObj uObj)))
    ∧ (∀ v, lookup u k = some v → bothObj v (lookup t k) = false →
        lookup (deepUpdateObj t u) k = some v)
    ∧ (lookup u k = none → lookup (deepUpdateObj t u) k = lookup t k) :=
  ⟨fun uObj tObj hk ht =>
      lookup_deepUpdateObj_recurse t u k uObj tObj hu hk ht,
    fun v hk hb => lookup_deepUpdateObj_replace t u k v hu hk hb,
    fun hk => lookup_deepUpdateObj_none t u k hk⟩

/-- Witness for C2 at concrete dicts: a nested dict merges key-wise, a
shorter list fully replaces a longer one, and an unmentioned key keeps its
value. -/
theorem c2_deep_update_key_semantics_witness :
    distinctKeys
        [ ("weather", Json.obj [("units", Json.str "metric")]),
          ("colors", Json.arr [Json.str "red"]) ] = true ∧
    lookup (deepUpdateObj
        [ ("weather", Json.obj
            [("units", Json.str "imperial"), ("enabled", Json.bool true)]),
          ("colors", Json.arr [Json.str "red", Json.str "green"]),
          ("audio", Json.bool true) ]
        [ ("weather", Json.obj [("units", Json.str "metric")]),
          ("colors", Json.arr [Json.str "red"]) ]) "weather" =
      some (Json.obj
        [("units", Json.str "metric"), ("enabled", Json.bool true)]) ∧
    lookup (deepUpdateObj
        [ ("weather", Json.obj
            [("units", Json.str "imperial"), ("enabled", Json.bool true)]),
          ("colors", Json.arr [Json.str "red", Json.str "green"]),
          ("audio", Json.bool true) ]
        [ ("weather", Json.obj [("units", Json.str "metric")]),
          ("colors", Json.arr [Json.str "red"]) ]) "colors" =
      some (Json.arr [Json.str "red"]) ∧
    lookup (deepUpdateObj
        [ ("weather", Json.obj
            [("units", Json.str "imperial"), ("enabled", Json.bool true)]),
          ("colors", Json.arr [Json.str "red", Json.str "green"]),
          ("audio", Json.bool true) ]
        [ ("weather", Json.obj [("units", Json.str "metric")]),
          ("colors", Json.arr [Json.str "red"]) ]) "audio" =
      some (Json.bool true) := by
  refine ⟨rfl, ?_, ?_, ?_⟩
  · refine ((c2_deep_update_key_semantics
        [ ("weather", Json.obj
            [("units", Json.str "imperial"), ("enabled", Json.bool true)]),
          ("colors", Json.arr [Json.str "red", Json.str "green"]),
          ("audio", Json.bool true) ]
        [ ("weather", Json.obj [("units", Json.str "metric")]),
          ("colors", Json.arr [Json.str "red"]) ]
        "weather" rfl).1 _ _ rfl rfl).trans ?_
    simp [deepUpdateObj, mergeStep, setKey, lookup]
  · exact (c2_deep_update_key_semantics
        [ ("weather", Json.obj
            [("units", Json.str "imperial"), ("enabled", Json.bool true)]),
          ("colors", Json.arr [Json.str "red", Json.str "green"]),
          ("audio", Json.bool true) ]
        [ ("weather", Json.obj [("units", Json.str "metric")]),
          ("colors", Json.arr [Json.str "red"]) ]
        "colors" rfl).2.1 _ rfl rfl
  · exact ((c2_deep_update_key_semantics
        [ ("weather", Json.obj
            [("units", Json.str "imperial"), ("enabled", Json.bool true)]),
          ("colors", Json.arr [Json.str "red", Json.str "green"]),
          ("audio", Json.bool true) ]
        [ ("weather", Json.obj [("units", Json.str "metric")]),
          ("colors", Json.arr [Json.str "red"]) ]
        "audio" rfl).2.2 rfl).trans rfl

/-- C4: when the persisted file exists but its contents do not parse,
`load_config` returns exactly the default tree; the model is a total
function (the `try`/`except` in `load_config` converts the parse error into
a logged warning), so nothing is raised to the caller. -/
theorem c4_load_corrupt_file_returns_defaults (e : String) :
    load_config true (Except.error e) = DEFAULT_CONFIG := rfl

/-- Witness for C4 at a concrete parse error. -/
theorem c4_load_corrupt_file_returns_defaults_witness :
    load_config true (Except.error "Expecting value: line 1 column 1") =
      DEFAULT_CONFIG :=
  c4_load_corrupt_file_returns_defaults "Expecting value: line 1 column 1"

/-- C5 counterexample: the persisted tree `{"terminal": 5}` parses, and its
`terminal` key is invalid with respect to the default schema (a number where
the defaults hold a section dict).  The claim predicts the default value at
every missing-or-invalid key, but `load()` keeps the invalid persisted
value: the whole default `terminal` section (e.g. `font_size = 24`) is
destroyed. -/
theorem c5_counterexample :
    lookupPath
        (load_config true (Except.ok (Json.obj [("terminal", Json.num 5)])))
        ["terminal"] = some (Json.num 5) ∧
    lookupPath DEFAULT_CONFIG ["terminal", "font_size"] =
      some (Json.num 24) ∧
    lookupPath
        (load_config true (Except.ok (Json.obj [("terminal", Json.num 5)])))
        ["terminal", "font_size"] = none := by
  refine ⟨?_, rfl, ?_⟩ <;>
    simp [load_config, deepUpdateObj, mergeStep, setKey, lookup, lookupPath,
      defaultEntries]

/-- C5 (amended): `load()` constructs the default tree and, when a persisted
file exists and parses as a dict, deep-merges it onto the defaults; default
values act as a fallback for every key path the persisted tree does not
touch, while any leaf value present in the persisted tree — valid or not —
wins over the default. -/
theorem c5_load_merges_defaults_fallback (saved : List (String × Json))
    (p : List String) (hwf : wfEntries saved = true) :
    (touchesPath (Json.obj saved) p = false →
      lookupPath (load_config true (Except.ok (Json.obj saved))) p =
        lookupPath DEFAULT_CONFIG p)
    ∧ (∀ v, lookupPath (Json.obj saved) p = some v → isObj v = false →
      lookupPath (load_config true (Except.ok (Json.obj saved))) p =
        some v) := by
  constructor
  · intro h
    show lookupPath (Json.obj (deepUpdateObj defaultEntries saved)) p = _
    exact lookupPath_deepUpdateObj_untouched p defaultEntries saved hwf h
  · intro v hv hleaf
    show lookupPath (Json.obj (deepUpdateObj defaultEntries saved)) p = _
    exact lookupPath_deepUpdateObj_patch_leaf p defaultEntries saved v hwf
      hv hleaf

/-- Witness for C5 (amended): a persisted file overriding only
`weather.units` leaves `weather.latitude` at its default and wins at
`weather.units`. -/
theorem c5_load_merges_defaults_fallback_witness :
    wfEntries [("weather", Json.obj [("units", Json.str "metric")])] = true ∧
    touchesPath (Json.obj [("weather", Json.obj [("units", Json.str "metric")])])
      ["weather", "latitude"] = false ∧
    lookupPath
        (load_config true (Except.ok
          (Json.obj [("weather", Json.obj [("units", Json.str "metric")])])))
        ["weather", "latitude"] =
      lookupPath DEFAULT_CONFIG ["weather", "latitude"] ∧
    lookupPath
        (load_config true (Except.ok
          (Json.obj [("weather", Json.obj [("units", Json.str "metric")])])))
        ["weather", "units"] = some (Json.str "metric") :=
  ⟨rfl, rfl,
    (c5_load_merges_defaults_fallback
      [("weather", Json.obj [("units", Json.str "metric")])]
      ["weather", "latitude"] rfl).1 rfl,
    (c5_load_merges_defaults_fallback
      [("weather", Json.obj [("units", Json.str "metric")])]
      ["weather", "units"] rfl).2 _ rfl rfl⟩

/-- C6: starting from the default tree, after `apply(P1)` then `apply(P2)`,
a snapshot holds P2's value at every path P2 specifies a leaf for, P1's
value at every path only P1 specifies, and the default value at every path
neither patch touches. -/
theorem c6_sequential_patches (p1 p2 : List (String × Json)) (p : List String)
    (w1 w2 : Except String Unit)
    (h1 : wfEntries p1 = true) (h2 : wfEntries p2 = true) :
    (∀ v, lookupPath (Json.obj p2) p = some v → isObj v = false →
        lookupPath (get_config
          (update_config (update_config DEFAULT_CONFIG (Json.obj p1) w1).1
            (Json.obj p2) w2).1) p = some v)
    ∧ (∀ v, touchesPath (Json.obj p2) p = false →
        lookupPath (Json.obj p1) p = some v → isObj v = false →
        lookupPath (get_config
          (update_config (update_config DEFAULT_CONFIG (Json.obj p1) w1).1
            (Json.obj p2) w2).1) p = some v)
    ∧ (touchesPath (Json.obj p2) p = false →
        touchesPath (Json.obj p1) p = false →
        lookupPath (get_config
          (update_config (update_config DEFAULT_CONFIG (Json.obj p1) w1).1
            (Json.obj p2) w2).1) p = lookupPath DEFAULT_CONFIG p) := by
  refine ⟨?_, ?_, ?_⟩
  · intro v hv hleaf
    show lookupPath
      (Json.obj (deepUpdateObj (deepUpdateObj defaultEntries p1) p2)) p = _
    exact lookupPath_deepUpdateObj_patch_leaf p _ p2 v h2 hv hleaf
  · intro v h2t h1v hleaf
    show lookupPath
      (Json.obj (deepUpdateObj (deepUpdateObj defaultEntries p1) p2)) p = _
    rw [lookupPath_deepUpdateObj_untouched p _ p2 h2 h2t]
    exact lookupPath_deepUpdateObj_patch_leaf p defaultEntries p1 v h1
      h1v hleaf
  · intro h2t h1t
    show lookupPath
      (Json.obj (deepUpdateObj (deepUpdateObj defaultEntries p1) p2)) p = _
    rw [lookupPath_deepUpdateObj_untouched p _ p2 h2 h2t]
    exact lookupPath_deepUpdateObj_untouched p defaultEntries p1 h1 h1t

/-- Witness for C6, the spec's own scenario: `apply({"background":
{"enabled": true, "path": "/tmp/x.png"}})` then `apply({"audio":
{"enabled": false}})` gives a snapshot with audio disabled (from P2),
the custom background path (from P1), and the default weather units. -/
theorem c6_sequential_patches_witness :
    wfEntries [("background", Json.obj
      [("enabled", Json.bool true), ("path", Json.str "/tmp/x.png")])] =
      true ∧
    wfEntries [("audio", Json.obj [("enabled", Json.bool false)])] = true ∧
    lookupPath (get_config
        (update_config
          (update_config DEFAULT_CONFIG
            (Json.obj [("background", Json.obj
              [("enabled", Json.bool true),
               ("path", Json.str "/tmp/x.png")])])
            (Except.ok ())).1
          (Json.obj [("audio", Json.obj [("enabled", Json.bool false)])])
          (Except.ok ())).1)
      ["audio", "enabled"] = some (Json.bool false) ∧
    lookupPath (get_config
        (update_config
          (update_config DEFAULT_CONFIG
            (Json.obj [("background", Json.obj
              [("enabled", Json.bool true),
               ("path", Json.str "/tmp/x.png")])])
            (Except.ok ())).1
          (Json.obj [("audio", Json.obj [("enabled", Json.bool false)])])
          (Except.ok ())).1)
      ["background", "path"] = some (Json.str "/tmp/x.png") ∧
    lookupPath (get_config
        (update_config
          (update_config DEFAULT_CONFIG
            (Json.obj [("background", Json.obj
              [("enabled", Json.bool true),
               ("path", Json.str "/tmp/x.png")])])
            (Except.ok ())).1
          (Json.obj [("audio", Json.obj [("enabled", Json.bool false)])])
          (Except.ok ())).1)
      ["weather", "units"] = some (Json.str "imperial") := by
  refine ⟨rfl, rfl, ?_, ?_, ?_⟩
  · exact (c6_sequential_patches
      [("background", Json.obj
        [("enabled", Json.bool true), ("path", Json.str "/tmp/x.png")])]
      [("audio", Json.obj [("enabled", Json.bool false)])]
      ["audio", "enabled"] (Except.ok ()) (Except.ok ()) rfl rfl).1 _ rfl rfl
  · exact (c6_sequential_patches
      [("background", Json.obj
        [("enabled", Json.bool true), ("path", Json.str "/tmp/x.png")])]
      [("audio", Json.obj [("enabled", Json.bool false)])]
      ["background", "path"] (Except.ok ()) (Except.ok ()) rfl rfl).2.1 _
      rfl rfl rfl
  · exact ((c6_sequential_patches
      [("background", Json.obj
        [("enabled", Json.bool true), ("path", Json.str "/tmp/x.png")])]
      [("audio", Json.obj [("enabled", Json.bool false)])]
      ["weather", "units"] (Except.ok ()) (Except.ok ()) rfl rfl).2.2
      rfl rfl).trans rfl

/-- C7: deep-merge is idempotent — applying the same patch twice in
succession leaves the same in-memory tree as applying it once
(`apply(P); apply(P)` = `apply(P)`), for every well-formed tree and
patch. -/
theorem c7_apply_idempotent (T P : Json) (w w' : Except String Unit)
    (hT : wfJson T = true) (hP : wfJson P = true) :
    (update_config (update_config T P w).1 P w').1 =
      (update_config T P w).1 := by
  show deep_update (deep_update T P) P = deep_update T P
  cases T with
  | obj t =>
      cases P with
      | obj u =>
          show Json.obj (deepUpdateObj (deepUpdateObj t u) u) =
            Json.obj (deepUpdateObj t u)
          rw [deepUpdateObj_idem u t (by rwa [wfJson] at hT)
            (by rwa [wfJson] at hP)]
      | null => rfl
      | bool b => rfl
      | num q => rfl
      | str s => rfl
      | arr xs => rfl
  | null => rfl
  | bool b => rfl
  | num q => rfl
  | str s => rfl
  | arr xs => rfl

/-- Witness for C7 at the default tree and a patch overriding
`weather.units` and adding a new key. -/
theorem c7_apply_idempotent_witness :
    wfJson DEFAULT_CONFIG = true ∧
    wfJson (Json.obj [("weather", Json.obj
      [("units", Json.str "metric"), ("station", Json.str "home")])]) =
      true ∧
    (update_config
        (update_config DEFAULT_CONFIG
          (Json.obj [("weather", Json.obj
            [("units", Json.str "metric"), ("station", Json.str "home")])])
          (Except.ok ())).1
        (Json.obj [("weather", Json.obj
          [("units", Json.str "metric"), ("station", Json.str "home")])])
        (Except.ok ())).1 =
      (update_config DEFAULT_CONFIG
        (Json.obj [("weather", Json.obj
          [("units", Json.str "metric"), ("station", Json.str "home")])])
        (Except.ok ())).1 :=
  ⟨rfl, rfl,
    c7_apply_idempotent DEFAULT_CONFIG
      (Json.obj [("weather", Json.obj
        [("units", Json.str "metric"), ("station", Json.str "home")])])
      (Except.ok ()) (Except.ok ()) rfl rfl⟩

/-- C3 counterexample: with a failing disk write, `update_config` raises
the failure to its caller — there is no `try`/`except` around
`save_config` in `update_config`, so the persistence failure is *not*
swallowed.  (The in-memory tree does reflect the patch, see the amended
theorem.) -/
theorem c3_counterexample :
    (update_config DEFAULT_CONFIG
        (Json.obj [("weather", Json.obj [("units", Json.str "metric")])])
        (Except.error "disk full")).2 = Except.error "disk full" ∧
    (update_config DEFAULT_CONFIG
        (Json.obj [("weather", Json.obj [("units", Json.str "metric")])])
        (Except.error "disk full")).2 ≠ Except.ok () :=
  ⟨rfl, fun h => Except.noConfusion h⟩

/-- C3 (amended): after `apply(patch)`, the in-memory tree reflects the
patch whatever the outcome of persisting it (the merge happens before the
write), but a persistence failure is raised to the caller of `apply`
unchanged rather than being swallowed and logged. -/
theorem c3_memory_updated_write_failure_raised (t u : List (String × Json))
    (p : List String) (w : Except String Unit) (hu : wfEntries u = true) :
    ((update_config (Json.obj t) (Json.obj u) w).2 = w)
    ∧ (∀ v, lookupPath (Json.obj u) p = some v → isObj v = false →
        lookupPath ((update_config (Json.obj t) (Json.obj u) w).1) p =
          some v)
    ∧ (touchesPath (Json.obj u) p = false →
        lookupPath ((update_config (Json.obj t) (Json.obj u) w).1) p =
          lookupPath (Json.obj t) p) := by
  refine ⟨rfl, ?_, ?_⟩
  · intro v hv hleaf
    show lookupPath (Json.obj (deepUpdateObj t u)) p = _
    exact lookupPath_deepUpdateObj_patch_leaf p t u v hu hv hleaf
  · intro htouch
    show lookupPath (Json.obj (deepUpdateObj t u)) p = _
    exact lookupPath_deepUpdateObj_untouched p t u hu htouch

/-- Witness for C3 (amended): a patch of `weather.units`, applied with a
failing write, is visible in memory while the failure is returned. -/
theorem c3_memory_updated_write_failure_raised_witness :
    wfEntries [("weather", Json.obj [("units", Json.str "metric")])] = true ∧
    ((update_config (Json.obj defaultEntries)
        (Json.obj [("weather", Json.obj [("units", Json.str "metric")])])
        (Except.error "disk full")).2 = Except.error "disk full") ∧
    lookupPath
        ((update_config (Json.obj defaultEntries)
          (Json.obj [("weather", Json.obj [("units", Json.str "metric")])])
          (Except.error "disk full")).1) ["weather", "units"] =
      some (Json.str "metric") ∧
    lookupPath
        ((update_config (Json.obj defaultEntries)
          (Json.obj [("weather", Json.obj [("units", Json.str "metric")])])
          (Except.error "disk full")).1) ["weather", "latitude"] =
      lookupPath (Json.obj defaultEntries) ["weather", "latitude"] :=
  ⟨rfl,
    (c3_memory_updated_write_failure_raised defaultEntries
      [("weather", Json.obj [("units", Json.str "metric")])]
      ["weather", "units"] (Except.error "disk full") rfl).1,
    (c3_memory_updated_write_failure_raised defaultEntries
      [("weather", Json.obj [("units", Json.str "metric")])]
      ["weather", "units"] (Except.error "disk full") rfl).2.1 _ rfl rfl,
    (c3_memory_updated_write_failure_raised defaultEntries
      [("weather", Json.obj [("units", Json.str "metric")])]
      ["weather", "latitude"] (Except.error "disk full") rfl).2.2 rfl⟩

/-- C8: in a polling cycle where the producer is enabled and a fetch is due,
a failing fetch is converted to the fixed sentinel `"Weather: --"` published
in the summary cell (`_fetch_weather` is total — the error never escapes),
and `_last_update` is set to `now`, so no cycle before `now + refresh_s`
fetches again. -/
theorem c8_fetch_failure_sentinel_no_retry (fmt : Rat → String)
    (st : WeatherState) (cfgKvs wc : List (String × Json)) (now r : Rat)
    (hwc : lookup cfgKvs "weather" = some (Json.obj wc))
    (hen : truthy ((lookup wc "enabled").getD (Json.bool true)) = true)
    (hr : asCompareNum ((lookup wc "refresh_s").getD (Json.num 300)) =
      some r)
    (hdue : now - st.lastUpdate ≥ r) :
    fetch_weather fmt wc FetchOutcome.error = "Weather: --" ∧
    runCycle fmt st (Json.obj cfgKvs) now FetchOutcome.error =
      some ({ summary := "Weather: --", lastUpdate := now }, true) ∧
    (∀ (nxt : Rat) (o : FetchOutcome), nxt - now < r →
      runCycle fmt { summary := "Weather: --", lastUpdate := now }
        (Json.obj cfgKvs) nxt o =
        some ({ summary := "Weather: --", lastUpdate := now }, false)) := by
  refine ⟨rfl, ?_, ?_⟩
  · simp only [runCycle, hwc, hen, hr, Bool.not_true, Bool.false_eq_true,
      if_false]
    rw [if_pos hdue]
    rfl
  · intro nxt o hlt
    simp only [runCycle, hwc, hen, hr, Bool.not_true, Bool.false_eq_true,
      if_false]
    rw [if_neg (not_le.mpr hlt)]

/-- Witness for C8 with the default configuration: first fetch due at
`now = 300` fails, publishing the sentinel; at `nxt = 400 < 300 + 300` no
fetch happens. -/
theorem c8_fetch_failure_sentinel_no_retry_witness :
    lookup defaultEntries "weather" = some (Json.obj
      [ ("enabled", Json.bool true),
        ("latitude", Json.num (377749 / 10000 : Rat)),
        ("longitude", Json.num (-1224194 / 10000 : Rat)),
        ("units", Json.str "imperial"),
        ("refresh_s", Json.num 300) ]) ∧
    ((300 : Rat) - initWeatherState.lastUpdate ≥ 300) ∧
    ((400 : Rat) - 300 < 300) ∧
    runCycle (fun _ => "") initWeatherState (Json.obj defaultEntries) 300
      FetchOutcome.error =
      some ({ summary := "Weather: --", lastUpdate := 300 }, true) ∧
    runCycle (fun _ => "") { summary := "Weather: --", lastUpdate := 300 }
      (Json.obj defaultEntries) 400 FetchOutcome.error =
      some ({ summary := "Weather: --", lastUpdate := 300 }, false) :=
  ⟨rfl, by norm_num [initWeatherState], by norm_num,
    (c8_fetch_failure_sentinel_no_retry (fun _ => "") initWeatherState
      defaultEntries
      [ ("enabled", Json.bool true),
        ("latitude", Json.num (377749 / 10000 : Rat)),
        ("longitude", Json.num (-1224194 / 10000 : Rat)),
        ("units", Json.str "imperial"),
        ("refresh_s", Json.num 300) ] 300 300 rfl rfl rfl
      (by norm_num [initWeatherState])).2.1,
    (c8_fetch_failure_sentinel_no_retry (fun _ => "") initWeatherState
      defaultEntries
      [ ("enabled", Json.bool true),
        ("latitude", Json.num (377749 / 10000 : Rat)),
        ("longitude", Json.num (-1224194 / 10000 : Rat)),
        ("units", Json.str "imperial"),
        ("refresh_s", Json.num 300) ] 300 300 rfl rfl rfl
      (by norm_num [initWeatherState])).2.2 400 FetchOutcome.error
      (by norm_num)⟩

/-- C9: every `POST /save` request gets the fixed success response and a
patch is applied; if a submitted latitude or longitude does not parse as a
float, the numeric fields of the applied patch fall back to `0.0` instead
of the request being rejected (`save` is total: no input makes it raise). -/
theorem c9_save_always_responds_numeric_fallback (pf : String → Option Rat)
    (form : SaveForm) :
    ((save pf form).response = "<p>Saved. <a href='/'>Back</a></p>")
    ∧ ((save pf form).patch = Json.obj (savePatchEntries pf form))
    ∧ (pf (form.lat.getD "0") = none →
        lookupPath (save pf form).patch ["weather", "latitude"] =
            some (Json.num 0) ∧
          lookupPath (save pf form).patch ["weather", "longitude"] =
            some (Json.num 0))
    ∧ (∀ a, pf (form.lat.getD "0") = some a →
        pf (form.lon.getD "0") = none →
        lookupPath (save pf form).patch ["weather", "latitude"] =
            some (Json.num 0) ∧
          lookupPath (save pf form).patch ["weather", "longitude"] =
            some (Json.num 0)) := by
  refine ⟨rfl, rfl, ?_, ?_⟩
  · intro h
    constructor <;>
      simp [save, savePatchEntries, parseLatLon, h, lookupPath, lookup]
  · intro a ha hb
    constructor <;>
      simp [save, savePatchEntries, parseLatLon, ha, hb, lookupPath, lookup]

/-- Witness for C9: a form whose latitude field does not parse still gets
the success response, with both numeric fields at `0.0`. -/
theorem c9_save_always_responds_numeric_fallback_witness :
    ((fun _ => none : String → Option Rat)
      ((SaveForm.mk none none none (some "abc") (some "1.5") none none
        none).lat.getD "0") = none) ∧
    (save (fun _ => none)
        (SaveForm.mk none none none (some "abc") (some "1.5") none none
          none)).response = "<p>Saved. <a href='/'>Back</a></p>" ∧
    lookupPath (save (fun _ => none)
        (SaveForm.mk none none none (some "abc") (some "1.5") none none
          none)).patch ["weather", "latitude"] = some (Json.num 0) ∧
    lookupPath (save (fun _ => none)
        (SaveForm.mk none none none (some "abc") (some "1.5") none none
          none)).patch ["weather", "longitude"] = some (Json.num 0) :=
  ⟨rfl,
    (c9_save_always_responds_numeric_fallback (fun _ => none)
      (SaveForm.mk none none none (some "abc") (some "1.5") none none
        none)).1,
    ((c9_save_always_responds_numeric_fallback (fun _ => none)
      (SaveForm.mk none none none (some "abc") (some "1.5") none none
        none)).2.2.1 rfl).1,
    ((c9_save_always_responds_numeric_fallback (fun _ => none)
      (SaveForm.mk none none none (some "abc") (some "1.5") none none
        none)).2.2.1 rfl).2⟩

/-- C10: the `/save` patch always pins `background.path` and `audio.path`
to the fixed asset paths, even when no background image and no boot sound
were uploaded (no file is written in that case), so applying the patch
overwrites any previously configured custom path at those keys. -/
theorem c10_save_pins_asset_paths (pf : String → Option Rat)
    (form : SaveForm) (cfg : List (String × Json))
    (w : Except String Unit)
    (hbg : fileGiven form.background_filename = false)
    (hsnd : fileGiven form.boot_sound_filename = false) :
    (save pf form).savedFiles = []
    ∧ lookupPath (save pf form).patch ["background", "path"] =
        some (Json.str BACKGROUND_PATH)
    ∧ lookupPath (save pf form).patch ["audio", "path"] =
        some (Json.str BOOT_SOUND_PATH)
    ∧ lookupPath ((update_config (Json.obj cfg) (save pf form).patch w).1)
        ["background", "path"] = some (Json.str BACKGROUND_PATH)
    ∧ lookupPath ((update_config (Json.obj cfg) (save pf form).patch w).1)
        ["audio", "path"] = some (Json.str BOOT_SOUND_PATH) := by
  refine ⟨?_, rfl, rfl, ?_, ?_⟩
  · simp [save, hbg, hsnd]
  · show lookupPath
      (Json.obj (deepUpdateObj cfg (savePatchEntries pf form)))
      ["background", "path"] = some (Json.str BACKGROUND_PATH)
    exact lookupPath_deepUpdateObj_patch_leaf ["background", "path"] cfg
      (savePatchEntries pf form) (Json.str BACKGROUND_PATH) rfl rfl rfl
  · show lookupPath
      (Json.obj (deepUpdateObj cfg (savePatchEntries pf form)))
      ["audio", "path"] = some (Json.str BOOT_SOUND_PATH)
    exact lookupPath_deepUpdateObj_patch_leaf ["audio", "path"] cfg
      (savePatchEntries pf form) (Json.str BOOT_SOUND_PATH) rfl rfl rfl

/-- Witness for C10: a save with no uploads, against a store holding custom
paths, writes no file and overwrites both custom paths with the fixed
asset paths. -/
theorem c10_save_pins_asset_paths_witness :
    fileGiven (SaveForm.mk none none none none none none none
      none).background_filename = false ∧
    (save (fun _ => none)
      (SaveForm.mk none none none none none none none none)).savedFiles =
      [] ∧
    lookupPath ((update_config
        (Json.obj
          [ ("background", Json.obj
              [ ("enabled", Json.bool true),
                ("path", Json.str "/custom/bg.png") ]),
            ("audio", Json.obj
              [ ("enabled", Json.bool true),
                ("path", Json.str "/custom/boot.wav") ]) ])
        (save (fun _ => none)
          (SaveForm.mk none none none none none none none none)).patch
        (Except.ok ())).1)
      ["background", "path"] = some (Json.str BACKGROUND_PATH) ∧
    lookupPath ((update_config
        (Json.obj
          [ ("background", Json.obj
              [ ("enabled", Json.bool true),
                ("path", Json.str "/custom/bg.png") ]),
            ("audio", Json.obj
              [ ("enabled", Json.bool true),
                ("path", Json.str "/custom/boot.wav") ]) ])
        (save (fun _ => none)
          (SaveForm.mk none none none none none none none none)).patch
        (Except.ok ())).1)
      ["audio", "path"] = some (Json.str BOOT_SOUND_PATH) :=
  ⟨rfl,
    (c10_save_pins_asset_paths (fun _ => none)
      (SaveForm.mk none none none none none none none none)
      [ ("background", Json.obj
          [ ("enabled", Json.bool true),
            ("path", Json.str "/custom/bg.png") ]),
        ("audio", Json.obj
          [ ("enabled", Json.bool true),
            ("path", Json.str "/custom/boot.wav") ]) ]
      (Except.ok ()) rfl rfl).1,
    (c10_save_pins_asset_paths (fun _ => none)
      (SaveForm.mk none none none none none none none none)
      [ ("background", Json.obj
          [ ("enabled", Json.bool true),
            ("path", Json.str "/custom/bg.png") ]),
        ("audio", Json.obj
          [ ("enabled", Json.bool true),
            ("path", Json.str "/custom/boot.wav") ]) ]
      (Except.ok ()) rfl rfl).2.2.2.1,
    (c10_save_pins_asset_paths (fun _ => none)
      (SaveForm.mk none none none none none none none none)
      [ ("background", Json.obj
          [ ("enabled", Json.bool true),
            ("path", Json.str "/custom/bg.png") ]),
        ("audio", Json.obj
          [ ("enabled", Json.bool true),
            ("path", Json.str "/custom/boot.wav") ]) ]
      (Except.ok ()) rfl rfl).2.2.2.2⟩

end Tom
